import Mathlib

/-!
Verification development for the broodpro repository.

The repository has two source files:
* `src/brood-pro-web/src/App.jsx` — a static landing-page component;
* `src/brood-pro-web/buildingmanual.md` — a tutorial document whose code
  blocks contain two React `ContactForm` components:
  the first at lines 105–206 (status values `null`, `'submitting'`,
  `'success'`, `'error'`, submit button disabled while submitting), and
  the second at lines 323–405 (status values `''`, `'Sending...'`,
  `'Message sent successfully!'`, `'Failed to send message.'`,
  `'An error occurred.'`, submit button never disabled).

Both forms are embedded below: the handlers as functions from the form
data and the network outcome to the list of primitive effects they
perform, and the component as a labelled transition system over its
local state.  The landing page is embedded as a fixed markup tree.
-/

namespace BroodPro

/-- The three text fields collected by `useState` in both ContactForm
examples: `{ name: '', email: '', message: '' }`. -/
structure FormData where
  name : String
  email : String
  message : String
deriving DecidableEq, Repr

/-- The initial (and reset) form value `{ name: '', email: '', message: '' }`. -/
def emptyForm : FormData := ⟨"", "", ""⟩

/-- The submission status of the first ContactForm example.
`idle` embeds the initial value `null` of
`useState(null); // 'success', 'error', 'submitting'` (line 114);
the other three constructors embed the string values the component
assigns: `'submitting'`, `'success'`, `'error'`. -/
inductive SubmissionStatus where
  | idle
  | submitting
  | success
  | error
deriving DecidableEq, Repr

/-- The three input names occurring in both rendered forms
(`name="name"`, `name="email"`, `name="message"`), i.e. the possible
values of `e.target.name` in `handleChange`. -/
inductive Field where
  | name
  | email
  | message
deriving DecidableEq, Repr

/-- `handleChange`: `setFormData({ ...formData, [name]: value })` —
the field named by the event target is replaced by the new value,
the other fields are spread through unchanged (lines 116–122 and
335–337 of the manual). -/
def handleChange (f : FormData) (fld : Field) (v : String) : FormData :=
  match fld with
  | .name => { f with name := v }
  | .email => { f with email := v }
  | .message => { f with message := v }

/-- Read one field of the form data. -/
def getField (f : FormData) : Field → String
  | .name => f.name
  | .email => f.email
  | .message => f.message

/-- An HTTP request as assembled by `fetch(url, { method, headers, body })`.
The body embeds `JSON.stringify(formData)`: the JSON object with exactly
the keys of `formData`, in insertion order. -/
structure Request where
  method : String
  contentType : String
  url : String
  body : List (String × String)
deriving DecidableEq, Repr

/-- `JSON.stringify(formData)` at the object level: exactly the three
keys `name`, `email`, `message`, in the insertion order of the
`useState` initialiser. -/
def jsonFields (f : FormData) : List (String × String) :=
  [("name", f.name), ("email", f.email), ("message", f.message)]

/-- The endpoint of the first example:
`fetch('YOUR_BACKEND_API_ENDPOINT/submit-form', ...)` (line 130). -/
def endpoint1 : String := "YOUR_BACKEND_API_ENDPOINT/submit-form"

/-- The endpoint of the second example:
`fetch('http://localhost:5000/contact', ...)` (line 344). -/
def endpoint2 : String := "http://localhost:5000/contact"

/-- The request the first example's `handleSubmit` issues:
`method: 'POST'`, `headers: { 'Content-Type': 'application/json' }`,
`body: JSON.stringify(formData)` (lines 130–138). -/
def mkRequest1 (f : FormData) : Request :=
  ⟨"POST", "application/json", endpoint1, jsonFields f⟩

/-- The request the second example's `handleSubmit` issues
(lines 344–350), identical except for the URL. -/
def mkRequest2 (f : FormData) : Request :=
  ⟨"POST", "application/json", endpoint2, jsonFields f⟩

/-- Outcome of the single `fetch` of the first example's `handleSubmit`:
the response is ok; the response is not ok and `response.json()`
resolves; the response is not ok and `response.json()` rejects;
the `fetch` itself rejects (no response received). -/
inductive Outcome1 where
  | httpOk
  | httpErrJson
  | httpErrNoJson
  | networkFail
deriving DecidableEq, Repr

/-- Outcome of the single `fetch` of the second example's `handleSubmit`
(it never calls `response.json()`, so an error response body is never
parsed): ok response, non-ok response, or the `fetch` rejects. -/
inductive Outcome2 where
  | httpOk
  | httpErr
  | networkFail
deriving DecidableEq, Repr

/-- A primitive effect performed by a `handleSubmit` run, with status
values of type `σ` (`SubmissionStatus` for the first example, `String`
for the second). -/
inductive Eff (σ : Type) where
  | preventDefault
  | setStatus (st : σ)
  | fetchPost (r : Request)
  | awaitJson
  | setForm (f : FormData)
  | consoleError
deriving DecidableEq, Repr

/-- The first example's `handleSubmit` (manual lines 124–159), as the
ordered list of effects it performs for a given fetch outcome:
`e.preventDefault()`; `setSubmissionStatus('submitting')`; the `fetch`;
then on `response.ok`: `setSubmissionStatus('success')`,
`setFormData({ name: '', email: '', message: '' })`; on a non-ok
response: `await response.json()`, `setSubmissionStatus('error')`,
`console.error(...)` — where a rejecting `response.json()` jumps to
the catch block, which performs `setSubmissionStatus('error')` and
`console.error(...)`; on a rejecting `fetch` the catch block likewise. -/
def handleSubmit1 (f : FormData) (o : Outcome1) : List (Eff SubmissionStatus) :=
  .preventDefault :: .setStatus .submitting ::
    match o with
    | .httpOk =>
        [.fetchPost (mkRequest1 f), .setStatus .success, .setForm emptyForm]
    | .httpErrJson =>
        [.fetchPost (mkRequest1 f), .awaitJson, .setStatus .error, .consoleError]
    | .httpErrNoJson =>
        [.fetchPost (mkRequest1 f), .awaitJson, .setStatus .error, .consoleError]
    | .networkFail =>
        [.fetchPost (mkRequest1 f), .setStatus .error, .consoleError]

/-- The second example's `handleSubmit` (manual lines 339–362):
`e.preventDefault()`; `setStatus('Sending...')`; the `fetch`; then on
`response.ok`: `setStatus('Message sent successfully!')`,
`setFormData({ name: '', email: '', message: '' })`; on a non-ok
response: `setStatus('Failed to send message.')`; on a rejecting
`fetch` the catch block performs `console.error(...)` and
`setStatus('An error occurred.')`. -/
def handleSubmit2 (f : FormData) (o : Outcome2) : List (Eff String) :=
  .preventDefault :: .setStatus "Sending..." ::
    match o with
    | .httpOk =>
        [.fetchPost (mkRequest2 f), .setStatus "Message sent successfully!",
          .setForm emptyForm]
    | .httpErr =>
        [.fetchPost (mkRequest2 f), .setStatus "Failed to send message."]
    | .networkFail =>
        [.fetchPost (mkRequest2 f), .consoleError, .setStatus "An error occurred."]

/-- The successive status values a run assigns, in order. -/
def statusUpdates {σ : Type} (effs : List (Eff σ)) : List σ :=
  effs.filterMap fun e =>
    match e with
    | .setStatus st => some st
    | _ => none

/-- The requests a run dispatches, in order. -/
def requestsOf {σ : Type} (effs : List (Eff σ)) : List Request :=
  effs.filterMap fun e =>
    match e with
    | .fetchPost r => some r
    | _ => none

/-- The form data held after a run, starting from `init`: the last
`setForm` value, or `init` if the run never sets the form. -/
def formAfter {σ : Type} (init : FormData) (effs : List (Eff σ)) : FormData :=
  effs.foldl (fun acc e =>
    match e with
    | .setForm g => g
    | _ => acc) init

/-- The last status a run assigns, if any. -/
def finalStatus {σ : Type} (effs : List (Eff σ)) : Option σ :=
  effs.foldl (fun acc e =>
    match e with
    | .setStatus st => some st
    | _ => acc) none

/-- Whether a run calls `e.preventDefault()`. -/
def prevented {σ : Type} [DecidableEq σ] (effs : List (Eff σ)) : Bool :=
  effs.contains .preventDefault

/-- The local state of the first ContactForm component: the two
`useState` cells (`formData`, `submissionStatus`) plus whether the one
`fetch` issued by `handleSubmit` is still outstanding (the handler has
set `'submitting'` but its promise has not yet resolved or rejected). -/
structure State1 where
  formData : FormData
  submissionStatus : SubmissionStatus
  pending : Bool
deriving DecidableEq, Repr

/-- Mount state of the first example: empty fields,
`useState(null)` status, no outstanding request. -/
def init1 : State1 := ⟨emptyForm, .idle, false⟩

/-- The `disabled` attribute of the first example's submit button:
`disabled={submissionStatus === 'submitting'}` (line 195). -/
def disabled1 (s : State1) : Bool :=
  decide (s.submissionStatus = SubmissionStatus.submitting)

/-- The status paragraph the first example renders (lines 199–200):
a fixed success line when status is `'success'`, a fixed error line
when status is `'error'`, nothing otherwise. -/
def messageOf1 : SubmissionStatus → Option String
  | .success => some "Message sent successfully!"
  | .error => some "Error sending message. Please try again."
  | _ => none

/-- State reached when the first example's outstanding fetch resolves:
on ok, `setSubmissionStatus('success')` and the form is cleared; on a
non-ok response or a rejection, `setSubmissionStatus('error')` and
the form data is not written.  In every case the request is no longer
outstanding. -/
def resolve1 (s : State1) (o : Outcome1) : State1 :=
  match o with
  | .httpOk => ⟨emptyForm, .success, false⟩
  | .httpErrJson => ⟨s.formData, .error, false⟩
  | .httpErrNoJson => ⟨s.formData, .error, false⟩
  | .networkFail => ⟨s.formData, .error, false⟩

/-- State reached by an input `onChange` event: only `formData` is
written, via `handleChange`. -/
def changeStep1 (s : State1) (fld : Field) (v : String) : State1 :=
  ⟨handleChange s.formData fld v, s.submissionStatus, s.pending⟩

/-- Event labels of the first component: a field edit, a submit of the
form (clicking the non-disabled submit button), and the resolution of
the outstanding fetch with a given outcome. -/
inductive Label1 where
  | change (fld : Field) (v : String)
  | submit
  | resolve (o : Outcome1)
deriving DecidableEq, Repr

/-- One event-loop step of the first ContactForm.  A `submit` step
requires the submit button not to be disabled; it performs the head of
`handleSubmit` (`setSubmissionStatus('submitting')`) and leaves the
fetch outstanding.  A `resolve` step requires an outstanding fetch and
performs the rest of `handleSubmit` for the outcome. -/
inductive Step1 : State1 → Label1 → State1 → Prop where
  | change (s : State1) (fld : Field) (v : String) :
      Step1 s (.change fld v) (changeStep1 s fld v)
  | submit (s : State1) :
      disabled1 s = false →
      Step1 s .submit ⟨s.formData, .submitting, true⟩
  | resolve (s : State1) (o : Outcome1) :
      s.pending = true →
      Step1 s (.resolve o) (resolve1 s o)

/-- States of the first ContactForm reachable from mount. -/
inductive Reachable1 : State1 → Prop where
  | init : Reachable1 init1
  | step (s : State1) (l : Label1) (s' : State1) :
      Reachable1 s → Step1 s l s' → Reachable1 s'

/-- The local state of the second ContactForm component: the two
`useState` cells (`formData`, `status : String`) plus the number of
outstanding fetches (its submit button is never disabled, so several
may be in flight). -/
structure State2 where
  formData : FormData
  status : String
  pending : Nat
deriving DecidableEq, Repr

/-- Mount state of the second example: empty fields, `useState('')`
status, no outstanding request. -/
def init2 : State2 := ⟨emptyForm, "", 0⟩

/-- The `disabled` attribute of the second example's submit button:
`<button type="submit">Send Message</button>` (line 398) has no
`disabled` attribute, so it is never disabled. -/
def disabled2 (_s : State2) : Bool := false

/-- The status paragraph the second example renders (line 399):
`{status && <p>{status}</p>}` — the raw status string, shown whenever
it is non-empty. -/
def messageOf2 (st : String) : Option String :=
  if st = "" then none else some st

/-- State reached when one of the second example's outstanding fetches
settles: `setStatus('Message sent successfully!')` with the form
cleared on ok, `setStatus('Failed to send message.')` on a non-ok
response, `setStatus('An error occurred.')` on a rejection. -/
def resolve2 (s : State2) (o : Outcome2) : State2 :=
  match o with
  | .httpOk => ⟨emptyForm, "Message sent successfully!", s.pending - 1⟩
  | .httpErr => ⟨s.formData, "Failed to send message.", s.pending - 1⟩
  | .networkFail => ⟨s.formData, "An error occurred.", s.pending - 1⟩

/-- State reached by an input `onChange` event in the second form. -/
def changeStep2 (s : State2) (fld : Field) (v : String) : State2 :=
  ⟨handleChange s.formData fld v, s.status, s.pending⟩

/-- Event labels of the second component. -/
inductive Label2 where
  | change (fld : Field) (v : String)
  | submit
  | resolve (o : Outcome2)
deriving DecidableEq, Repr

/-- One event-loop step of the second ContactForm.  Its submit button
is never disabled, so a `submit` step only requires `disabled2 s =
false`, which always holds; each submit adds one outstanding fetch. -/
inductive Step2 : State2 → Label2 → State2 → Prop where
  | change (s : State2) (fld : Field) (v : String) :
      Step2 s (.change fld v) (changeStep2 s fld v)
  | submit (s : State2) :
      disabled2 s = false →
      Step2 s .submit ⟨s.formData, "Sending...", s.pending + 1⟩
  | resolve (s : State2) (o : Outcome2) :
      0 < s.pending →
      Step2 s (.resolve o) (resolve2 s o)

/-- States of the second ContactForm reachable from mount. -/
inductive Reachable2 : State2 → Prop where
  | init : Reachable2 init2
  | step (s : State2) (l : Label2) (s' : State2) :
      Reachable2 s → Step2 s l s' → Reachable2 s'

/-- Modelled from the spec: the map from the second example's concrete
status strings to the spec's four-state `SubmissionStatus`
enumeration (`idle | submitting | success | error`), for comparing the
second form with the enumeration the spec describes.  `''` is the
initial (idle) value, `'Sending...'` the in-flight value, and both
failure strings fall in the single error state; any other string is
outside the enumeration. -/
def statusAbs2 (st : String) : Option SubmissionStatus :=
  if st = "" then some .idle
  else if st = "Sending..." then some .submitting
  else if st = "Message sent successfully!" then some .success
  else if st = "Failed to send message." then some .error
  else if st = "An error occurred." then some .error
  else none

/-- Modelled from the spec: the transition relation the spec states
for `SubmissionStatus` — `idle → submitting → {success, error}` and
`error → submitting` (on resubmission), "with no other transitions". -/
def claimedStatusRel (a b : SubmissionStatus) : Bool :=
  match a, b with
  | .idle, .submitting => true
  | .submitting, .success => true
  | .submitting, .error => true
  | .error, .submitting => true
  | _, _ => false

/-- The status transitions the first example's code actually performs:
every submit (possible whenever the button is enabled, i.e. from
`idle`, `success` or `error`) moves to `submitting`, and a resolving
fetch moves from `submitting` to `success` or `error`. -/
def codeStatusRel (a b : SubmissionStatus) : Bool :=
  match a, b with
  | .idle, .submitting => true
  | .success, .submitting => true
  | .error, .submitting => true
  | .submitting, .success => true
  | .submitting, .error => true
  | _, _ => false

mutual

/-- A node of the rendered markup tree of `App.jsx`: an element with a
tag and a `className`, a text node, or an `img` with `src` and `alt`. -/
inductive Node where
  | el (tag cls : String) (children : NodeList)
  | text (s : String)
  | img (src alt : String)

/-- A list of sibling nodes (mutual with `Node` so that the counting
functions below are structurally recursive). -/
inductive NodeList where
  | nil
  | cons (n : Node) (ns : NodeList)

end

/-- Build a `NodeList` from a `List Node`. -/
def NodeList.ofList : List Node → NodeList
  | [] => .nil
  | n :: ns => .cons n (NodeList.ofList ns)

mutual

/-- How many text nodes of the tree hold exactly the string `s`. -/
def countText (s : String) : Node → Nat
  | .el _ _ cs => countTextList s cs
  | .text t => if t = s then 1 else 0
  | .img _ _ => 0

/-- How many text nodes of the sibling list hold exactly `s`. -/
def countTextList (s : String) : NodeList → Nat
  | .nil => 0
  | .cons n ns => countText s n + countTextList s ns

end

mutual

/-- The `src` attributes of all `img` nodes of the tree, in document
order. -/
def imgSrcs : Node → List String
  | .el _ _ cs => imgSrcsList cs
  | .text _ => []
  | .img src _ => [src]

/-- The `src` attributes of all `img` nodes of the sibling list. -/
def imgSrcsList : NodeList → List String
  | .nil => []
  | .cons n ns => imgSrcs n ++ imgSrcsList ns

end

/-- The logo image module imported by `App.jsx`:
`import logo from './logos/logo4.png'`. -/
def logoSrc : String := "./logos/logo4.png"

/-- The hero image module imported by `App.jsx`: `import heroImage from
'./images/Gemini_Generated_Image_h25qwth25qwth25q-Photoroom 2.png'`. -/
def heroSrc : String :=
  "./images/Gemini_Generated_Image_h25qwth25qwth25q-Photoroom 2.png"

/-- The `navButton` constant of `App.jsx`: the decorative three-line
menu-toggle affordance. -/
def navButton : Node :=
  .el "div" "nav-hm-button-container" (.ofList
    [.el "div" "nav-hm-button on" (.ofList
      [.el "div" "nav-hm-line" .nil,
       .el "div" "nav-hm-line" .nil,
       .el "div" "nav-hm-line" .nil])])

/-- The fixed tree returned by the `App` component of `App.jsx`:
header (logo image + "Broodpro" title, nav with "Apply now" and the
menu toggle), hero block with the three literal lines, subtext,
call-to-action, and the hero image.  The JSX fragment `<>...</>` is
embedded as an unnamed root element. -/
def App : Node :=
  .el "fragment" "" (.ofList
    [.el "div" "header" (.ofList
      [.el "div" "logo" (.ofList
        [.img logoSrc "logo",
         .el "h1" "logo-text" (.ofList [.text "Broodpro"])]),
       .el "nav" "nav-lists" (.ofList
        [.el "p" "nav-item" (.ofList [.text "Apply now"]),
         navButton])]),
     .el "body" "" (.ofList
      [.el "div" "hero-container" (.ofList
        [.el "div" "hero-section" (.ofList
          [.el "div" "hero-text-container" (.ofList
            [.el "h1" "hero-text" (.ofList [.text "Stay in"]),
             .el "h1" "hero-text" (.ofList [.text "school"]),
             .el "h1" "hero-text" (.ofList [.text "peeps"])]),
           .el "p" "hero-subtext" (.ofList
            [.text "And yes. We can help make that a reality."])]),
         .el "div" "button-container" (.ofList
          [.el "p" "button-text" (.ofList [.text "Join the program"])])])]),
     .el "div" "hero-image" (.ofList [.img heroSrc "graduants"])])

/-! Theorems. -/

/-- Invariant of the first ContactForm: a fetch is outstanding exactly
while `submissionStatus` is `'submitting'`. -/
lemma reachable1_pending_iff {s : State1} (h : Reachable1 s) :
    s.pending = true ↔ s.submissionStatus = .submitting := by
  induction h with
  | init => simp [init1]
  | step s l s' _ hstep ih =>
    cases hstep with
    | change fld v => simpa [changeStep1] using ih
    | submit hd => simp
    | resolve o hp => cases o <;> simp [resolve1]

/-- The user re-entering all three fields (three `onChange` events),
ending with the values of `f`: the base form is fully overwritten. -/
def refill (b f : FormData) : FormData :=
  handleChange (handleChange (handleChange b .name f.name) .email f.email)
    .message f.message

/-- C1: a submission whose POST resolves with `response.ok` performs the
status updates `submitting` then `success` and resets all three fields
to the empty string, in both ContactForm examples (the second example's
string statuses map to `submitting`/`success` under the spec's
enumeration). -/
theorem success_transitions_and_clears (f : FormData) :
    statusUpdates (handleSubmit1 f .httpOk) = [.submitting, .success]
    ∧ formAfter f (handleSubmit1 f .httpOk) = emptyForm
    ∧ statusUpdates (handleSubmit2 f .httpOk)
        = ["Sending...", "Message sent successfully!"]
    ∧ (statusUpdates (handleSubmit2 f .httpOk)).map statusAbs2
        = [some .submitting, some .success]
    ∧ formAfter f (handleSubmit2 f .httpOk) = emptyForm :=
  ⟨rfl, rfl, rfl, rfl, rfl⟩

/-- C2: a submission whose POST resolves with a non-success status
performs the status updates `submitting` then `error` and leaves the
three fields exactly as they were before submission, in both
ContactForm examples (in the first, whether or not the error body
parses as JSON). -/
theorem httpError_sets_error_retains_fields (f : FormData) :
    statusUpdates (handleSubmit1 f .httpErrJson) = [.submitting, .error]
    ∧ statusUpdates (handleSubmit1 f .httpErrNoJson) = [.submitting, .error]
    ∧ formAfter f (handleSubmit1 f .httpErrJson) = f
    ∧ formAfter f (handleSubmit1 f .httpErrNoJson) = f
    ∧ statusUpdates (handleSubmit2 f .httpErr)
        = ["Sending...", "Failed to send message."]
    ∧ (statusUpdates (handleSubmit2 f .httpErr)).map statusAbs2
        = [some .submitting, some .error]
    ∧ formAfter f (handleSubmit2 f .httpErr) = f :=
  ⟨rfl, rfl, rfl, rfl, rfl, rfl, rfl⟩

/-- C3 counterexample: in the second ContactForm example the two failure
kinds are user-visibly different — a rejected `fetch` leaves status
`'An error occurred.'` while a non-ok response leaves
`'Failed to send message.'`, and the rendered status paragraph shows
exactly those distinct strings. -/
theorem secondForm_failure_messages_differ :
    finalStatus (handleSubmit2 ⟨"Ada", "ada@example.com", "Hi"⟩ .networkFail)
      = some "An error occurred."
    ∧ finalStatus (handleSubmit2 ⟨"Ada", "ada@example.com", "Hi"⟩ .httpErr)
      = some "Failed to send message."
    ∧ messageOf2 "An error occurred." ≠ messageOf2 "Failed to send message."
    ∧ statusAbs2 "An error occurred." = some .error
    ∧ statusAbs2 "Failed to send message." = some .error :=
  ⟨rfl, rfl, by decide, by decide, by decide⟩

/-- C3 amended: a transport-level failure sets status to the error
state with all three fields retained in both examples; in the first
example this outcome (status updates, fields, rendered message) is
identical to that of a non-success HTTP response, while in the second
example the two failures agree only up to the spec's four-state
enumeration and display different concrete messages. -/
theorem failure_outcomes (f : FormData) :
    statusUpdates (handleSubmit1 f .networkFail) = [.submitting, .error]
    ∧ formAfter f (handleSubmit1 f .networkFail) = f
    ∧ statusUpdates (handleSubmit1 f .networkFail)
        = statusUpdates (handleSubmit1 f .httpErrJson)
    ∧ formAfter f (handleSubmit1 f .networkFail)
        = formAfter f (handleSubmit1 f .httpErrJson)
    ∧ messageOf1 .error = some "Error sending message. Please try again."
    ∧ finalStatus (handleSubmit2 f .networkFail) = some "An error occurred."
    ∧ formAfter f (handleSubmit2 f .networkFail) = f
    ∧ (finalStatus (handleSubmit2 f .networkFail)).bind statusAbs2
        = (finalStatus (handleSubmit2 f .httpErr)).bind statusAbs2
    ∧ (some "An error occurred." : Option String)
        ≠ some "Failed to send message." :=
  ⟨rfl, rfl, rfl, rfl, rfl, rfl, rfl, rfl, by decide⟩

/-- C4 counterexample: in the second ContactForm example a state with
one outstanding request (status `'Sending...'`, the enumeration's
`submitting`) is reachable, its submit button is not disabled, and a
second submission step is dispatched from it. -/
theorem secondForm_submit_while_pending :
    Reachable2 ⟨emptyForm, "Sending...", 1⟩
    ∧ Step2 ⟨emptyForm, "Sending...", 1⟩ .submit ⟨emptyForm, "Sending...", 2⟩
    ∧ statusAbs2 "Sending..." = some .submitting
    ∧ disabled2 ⟨emptyForm, "Sending...", 1⟩ = false := by
  refine ⟨?_, .submit _ rfl, by decide, rfl⟩
  exact .step init2 .submit _ .init (.submit init2 rfl)

/-- C4 amended: in the first ContactForm example, whenever a request is
outstanding the status is `submitting`, the submit button is disabled,
and no submit step can be taken, so a second submission is never
dispatched; the second example's submit button is never disabled and
provides no such guard. -/
theorem firstForm_no_submit_while_pending (s : State1)
    (h : Reachable1 s) (hp : s.pending = true) :
    s.submissionStatus = .submitting
    ∧ disabled1 s = true
    ∧ (∀ s2 : State1, ¬ Step1 s .submit s2)
    ∧ (∀ t : State2, disabled2 t = false) := by
  have hst : s.submissionStatus = .submitting := (reachable1_pending_iff h).mp hp
  refine ⟨hst, by simp [disabled1, hst], ?_, fun t => rfl⟩
  intro s2 hstep
  cases hstep with
  | submit hd => rw [disabled1, hst] at hd; simp at hd

/-- Witness for the C4 amended theorem at the concrete reachable state
reached from mount by one submit. -/
theorem firstForm_no_submit_while_pending_witness :
    (⟨emptyForm, .submitting, true⟩ : State1).submissionStatus = .submitting
    ∧ disabled1 ⟨emptyForm, .submitting, true⟩ = true := by
  have hr : Reachable1 ⟨emptyForm, .submitting, true⟩ :=
    .step init1 .submit _ .init (.submit init1 (by decide))
  have h := firstForm_no_submit_while_pending _ hr rfl
  exact ⟨h.1, h.2.1⟩

/-- C5 counterexample: in the first ContactForm example a state with
status `success` is reachable (successful submission, then the user
re-types the three fields), and from it a submit step moves the status
to `submitting` — a status change `success → submitting` that the
spec's claimed transition relation does not contain. -/
theorem success_to_submitting_reachable :
    Reachable1 ⟨⟨"Ada", "ada@example.com", "Hi"⟩, .success, false⟩
    ∧ Step1 ⟨⟨"Ada", "ada@example.com", "Hi"⟩, .success, false⟩ .submit
        ⟨⟨"Ada", "ada@example.com", "Hi"⟩, .submitting, true⟩
    ∧ claimedStatusRel .success .submitting = false := by
  refine ⟨?_, .submit _ (by decide), by decide⟩
  have h1 : Reachable1 ⟨emptyForm, .submitting, true⟩ :=
    .step init1 .submit _ .init (.submit init1 (by decide))
  have h2 : Reachable1 ⟨emptyForm, .success, false⟩ :=
    .step _ (.resolve .httpOk) _ h1 (.resolve _ .httpOk rfl)
  have h3 : Reachable1 ⟨⟨"Ada", "", ""⟩, .success, false⟩ :=
    .step _ (.change .name "Ada") _ h2 (.change _ .name "Ada")
  have h4 : Reachable1 ⟨⟨"Ada", "ada@example.com", ""⟩, .success, false⟩ :=
    .step _ (.change .email "ada@example.com") _ h3
      (.change _ .email "ada@example.com")
  exact .step _ (.change .message "Hi") _ h4 (.change _ .message "Hi")

/-- C5 amended: every status change of the first ContactForm example
along a reachable step lies in the code's transition relation
`{idle, error, success} → submitting → {success, error}` — the spec's
relation extended with the resubmission transition
`success → submitting`. -/
theorem firstForm_status_transitions (s : State1) (l : Label1) (s2 : State1)
    (h : Reachable1 s) (hstep : Step1 s l s2)
    (hne : s.submissionStatus ≠ s2.submissionStatus) :
    codeStatusRel s.submissionStatus s2.submissionStatus = true := by
  cases hstep with
  | change fld v => exact absurd rfl hne
  | submit hd =>
      have hns : s.submissionStatus ≠ .submitting := by
        intro hx
        rw [disabled1, hx] at hd
        simp at hd
      cases hq : s.submissionStatus with
      | idle => rfl
      | submitting => exact absurd hq hns
      | success => rfl
      | error => rfl
  | resolve o hp =>
      have hst : s.submissionStatus = .submitting :=
        (reachable1_pending_iff h).mp hp
      cases o <;> simp [resolve1, hst, codeStatusRel]

/-- Witness for the C5 amended theorem at the mount state's first
submit step, the status change `idle → submitting`. -/
theorem firstForm_status_transitions_witness :
    codeStatusRel .idle .submitting = true :=
  firstForm_status_transitions init1 .submit ⟨emptyForm, .submitting, true⟩
    .init (.submit init1 (by decide)) (by decide)

/-- C6: every `handleSubmit` run, in both ContactForm examples, calls
`preventDefault`, sets the in-flight status first, and dispatches
exactly one HTTP POST to the configured endpoint with header
`Content-Type: application/json` and the JSON object holding exactly
the three fields as its body. -/
theorem submit_effects_shape (f : FormData) :
    (∀ o : Outcome1,
      requestsOf (handleSubmit1 f o) = [mkRequest1 f]
      ∧ (handleSubmit1 f o).take 2
          = [.preventDefault, .setStatus .submitting]
      ∧ prevented (handleSubmit1 f o) = true)
    ∧ (∀ o : Outcome2,
      requestsOf (handleSubmit2 f o) = [mkRequest2 f]
      ∧ (handleSubmit2 f o).take 2
          = [.preventDefault, .setStatus "Sending..."]
      ∧ prevented (handleSubmit2 f o) = true)
    ∧ mkRequest1 f = ⟨"POST", "application/json", endpoint1,
        [("name", f.name), ("email", f.email), ("message", f.message)]⟩
    ∧ mkRequest2 f = ⟨"POST", "application/json", endpoint2,
        [("name", f.name), ("email", f.email), ("message", f.message)]⟩ := by
  refine ⟨fun o => ?_, fun o => ?_, rfl, rfl⟩ <;> cases o <;> exact ⟨rfl, rfl, rfl⟩

/-- C7: the landing page renders each of the six fixed text strings and
each of the two image references exactly once. -/
theorem landing_page_fixed_content :
    countText "Stay in" App = 1
    ∧ countText "school" App = 1
    ∧ countText "peeps" App = 1
    ∧ countText "And yes. We can help make that a reality." App = 1
    ∧ countText "Join the program" App = 1
    ∧ countText "Apply now" App = 1
    ∧ imgSrcs App = [logoSrc, heroSrc]
    ∧ logoSrc ≠ heroSrc :=
  ⟨rfl, rfl, rfl, rfl, rfl, rfl, rfl, by decide⟩

/-- C8: a successful submission resets the fields to empty and ends in
`success`; re-entering the same three values into the cleared form and
submitting again runs exactly the same handler behaviour, so the state
after two identical successful submissions equals the state after
one. -/
theorem repeat_success_idempotent (b f : FormData) :
    refill b f = f
    ∧ finalStatus (handleSubmit1 f .httpOk) = some .success
    ∧ formAfter f (handleSubmit1 f .httpOk) = emptyForm
    ∧ statusUpdates (handleSubmit1 f .httpOk) = [.submitting, .success]
    ∧ handleSubmit1 (refill (formAfter f (handleSubmit1 f .httpOk)) f) .httpOk
        = handleSubmit1 f .httpOk :=
  ⟨rfl, rfl, rfl, rfl, rfl⟩

/-- C9: a field-change event writes the named field with the event
value and leaves the other two fields, the submission status, and the
outstanding-request flag unchanged. -/
theorem handleChange_frame (s : State1) (fld : Field) (v : String) :
    (changeStep1 s fld v).submissionStatus = s.submissionStatus
    ∧ (changeStep1 s fld v).pending = s.pending
    ∧ getField (changeStep1 s fld v).formData fld = v
    ∧ ∀ fld2 : Field, fld2 ≠ fld →
        getField (changeStep1 s fld v).formData fld2
          = getField s.formData fld2 := by
  refine ⟨rfl, rfl, ?_, ?_⟩
  · cases fld <;> rfl
  · intro fld2 hne
    cases fld <;> cases fld2 <;> first | rfl | exact absurd rfl hne

/-- Witness for C9 at a concrete state: changing `name` to `"z"` sets
`name` and leaves `email` at its old value. -/
theorem handleChange_frame_witness :
    getField (changeStep1 ⟨⟨"a", "b", "c"⟩, .idle, false⟩ .name "z").formData
        .email = "b"
    ∧ getField (changeStep1 ⟨⟨"a", "b", "c"⟩, .idle, false⟩ .name "z").formData
        .name = "z" := by
  have h := handleChange_frame ⟨⟨"a", "b", "c"⟩, .idle, false⟩ .name "z"
  exact ⟨h.2.2.2 .email (by decide), h.2.2.1⟩

/-- C10: for a non-success HTTP response in the first ContactForm
example, `response.json()` is awaited before status is set to `error`
(visible in the effect order), and whether that parse resolves or
rejects, the run performs the same effects: final status `error`,
fields retained. -/
theorem error_branch_json_parse_irrelevant (f : FormData) :
    handleSubmit1 f .httpErrJson
      = [.preventDefault, .setStatus .submitting, .fetchPost (mkRequest1 f),
          .awaitJson, .setStatus .error, .consoleError]
    ∧ handleSubmit1 f .httpErrNoJson = handleSubmit1 f .httpErrJson
    ∧ finalStatus (handleSubmit1 f .httpErrJson) = some .error
    ∧ finalStatus (handleSubmit1 f .httpErrNoJson) = some .error
    ∧ formAfter f (handleSubmit1 f .httpErrJson) = f
    ∧ formAfter f (handleSubmit1 f .httpErrNoJson) = f :=
  ⟨rfl, rfl, rfl, rfl, rfl, rfl⟩

end BroodPro
